import Mathlib

/-!
Verification of the voice-interview recorder repository.

The development shallowly embeds the audio-capture component
(`AudioRecorder`), the upload workflow (`App.handleRecordingComplete`),
and the recordings-list query (`RecordingsList.fetchRecordings` together
with `isAdmin` from `lib/supabase.ts`).  Binary blobs are modelled as
lists of bytes (`List Nat`) with a declared MIME type; the browser
environment (device acquisition, MediaRecorder construction, storage and
database outcomes) is passed in explicitly as an environment value, and
an object URL created by `URL.createObjectURL` is modelled as a fixed
non-empty string together with a liveness flag that revocation clears.
-/

namespace VoiceRec

/-- A media stream as acquired from `getUserMedia`: the number of audio
tracks it carries and whether its tracks are still live (not stopped). -/
structure Stream where
  numAudioTracks : Nat
  tracksLive : Bool
deriving Repr, DecidableEq

/-- A binary blob: its byte content and its declared MIME type. -/
structure Blob where
  data : List Nat
  type : String
deriving Repr, DecidableEq

/-- `Blob.size` is the byte length, as in the browser `Blob.size`. -/
def Blob.size (b : Blob) : Nat := b.data.length

/-- The state held by the `AudioRecorder` component: the `useState`
hooks and the `useRef` cells of `src/unnamed/part_002`. -/
structure Session where
  isRecording : Bool
  audioBlob : Option Blob
  recordingTime : Nat
  audioUrl : String
  urlLive : Bool
  error : String
  chunks : List Blob
  stream : Option Stream
  hasRecorder : Bool
  mimeType : String
  timerActive : Bool
deriving Repr, DecidableEq

/-- The component's initial state: nothing recorded, no refs set. -/
def initialSession : Session :=
  { isRecording := false, audioBlob := none, recordingTime := 0,
    audioUrl := "", urlLive := false, error := "", chunks := [],
    stream := none, hasRecorder := false, mimeType := "",
    timerActive := false }

/-- The abstract lifecycle states of the specification. -/
inductive SessionState
  | Idle
  | Requesting
  | Recording
  | Stopped
  | Error
deriving Repr, DecidableEq

/-- The abstract state derived from the component state: actively
recording counts as `Recording`; otherwise a non-empty error message
means `Error`; otherwise a finalized artifact means `Stopped`. -/
def stateOf (s : Session) : SessionState :=
  if s.isRecording then .Recording
  else if s.error ≠ "" then .Error
  else if s.audioBlob.isSome then .Stopped
  else .Idle

/-- The `ondataavailable` handler: append the fragment to the chunk
buffer exactly when its size is positive. -/
def onChunkAvailable (s : Session) (c : Blob) : Session :=
  if 0 < c.size then { s with chunks := s.chunks ++ [c] } else s

/-- The total size computed in `onstop` by
`reduce((sum, chunk) => sum + chunk.size, 0)`. -/
def totalSize (chunks : List Blob) : Nat :=
  chunks.foldl (fun sum c => sum + c.size) 0

/-- The type given to the assembled blob:
`audioChunksRef.current[0]?.type || 'audio/webm'`. -/
def firstChunkType (chunks : List Blob) : String :=
  match chunks.head? with
  | some c => if c.type = "" then "audio/webm" else c.type
  | none => "audio/webm"

/-- The byte content of `new Blob(chunks, ...)`: the concatenation of
the chunks' bytes in order. -/
def concatData (chunks : List Blob) : List Nat :=
  (chunks.map Blob.data).flatten

/-- The `mediaRecorder.onstop` handler.  With an empty chunk buffer, or
a zero total size, it sets an error message and returns early — note
that the early returns skip the stream cleanup at the bottom of the
handler, so the device handle is only cleared on the paths that reach
the cleanup. -/
def finalize (s : Session) : Session :=
  if s.chunks.length = 0 then
    { s with error := "No audio data was recorded. Please try again." }
  else if totalSize s.chunks = 0 then
    { s with error := "Recorded audio file is empty. Please check your microphone and try again." }
  else if 0 < (Blob.mk (concatData s.chunks) (firstChunkType s.chunks)).size then
    { s with audioBlob := some ⟨concatData s.chunks, firstChunkType s.chunks⟩,
             audioUrl := "blob:recording", urlLive := true, stream := none }
  else
    { s with error := "Failed to create audio file. Please try recording again.",
             stream := none }

/-- The ordered MIME-type preference list of `getSupportedMimeType`. -/
def mimeCandidates : List String :=
  ["audio/webm;codecs=opus", "audio/webm", "audio/ogg;codecs=opus",
   "audio/mp4", "audio/wav"]

/-- The loop of `getSupportedMimeType`: return the first candidate the
probe supports, falling back to `audio/webm`. -/
def findSupportedType : List String → (String → Bool) → String
  | [], _ => "audio/webm"
  | t :: rest, supported =>
      if supported t then t else findSupportedType rest supported

/-- `getSupportedMimeType`, with `MediaRecorder.isTypeSupported` passed
in as the probe predicate. -/
def getSupportedMimeType (supported : String → Bool) : String :=
  findSupportedType mimeCandidates supported

/-- A thrown JavaScript error: its `name` and `message`. -/
structure JsError where
  name : String
  msg : String
deriving Repr, DecidableEq

/-- The outcome of the awaited `getUserMedia` call. -/
inductive AcqResult
  | err (e : JsError)
  | ok (stream : Stream)
deriving Repr, DecidableEq

/-- The browser environment a `startRecording` call runs against:
the device-acquisition outcome, the type-support probe, and whether
both `MediaRecorder` constructions throw (`some e`) or a recorder is
obtained (`none`). -/
structure StartEnv where
  acq : AcqResult
  supported : String → Bool
  ctorFail : Option JsError

/-- The message suffix chosen by the catch block of `startRecording`
from the error's `name`. -/
def suffixFor (e : JsError) : String :=
  if e.name = "NotAllowedError" then "Please allow microphone access and try again."
  else if e.name = "NotFoundError" then "No microphone found. Please connect a microphone."
  else if e.name = "NotSupportedError" then "Audio recording is not supported in this browser."
  else if e.name = "NotReadableError" then "Microphone is being used by another application."
  else e.msg

/-- The full error message set by the catch block of `startRecording`. -/
def errorMessageFor (e : JsError) : String :=
  "Error accessing microphone. " ++ suffixFor e

/-- The result of a `startRecording` call: the next component state,
and whether a device request (`getUserMedia`) was issued. -/
structure StartResult where
  next : Session
  deviceRequested : Bool
deriving Repr

/-- `startRecording`.  It has no state-based guard: it clears the error
and awaits `getUserMedia` unconditionally.  On success it stores the
stream, throws if the stream has no audio tracks, negotiates the MIME
type, constructs the recorder, resets the chunk buffer, and starts
recording with a fresh timer.  The catch block maps the error name to a
message and clears the recording flag, but does not release a stream
acquired before the failure. -/
def startRecordingR (s : Session) (env : StartEnv) : StartResult :=
  let s0 := { s with error := "" }
  match env.acq with
  | .err e =>
      { next := { s0 with error := errorMessageFor e, isRecording := false },
        deviceRequested := true }
  | .ok stream =>
      let s1 := { s0 with stream := some stream }
      if stream.numAudioTracks = 0 then
        { next := { s1 with
            error := errorMessageFor ⟨"Error", "No audio tracks found in media stream"⟩,
            isRecording := false },
          deviceRequested := true }
      else
        let mt := getSupportedMimeType env.supported
        match env.ctorFail with
        | some e =>
            { next := { s1 with error := errorMessageFor e, isRecording := false },
              deviceRequested := true }
        | none =>
            let s2 := { s1 with hasRecorder := true, chunks := [], mimeType := mt,
                                isRecording := true, recordingTime := 0, timerActive := true }
            { next := s2, deviceRequested := true }

/-- The state after a `startRecording` call. -/
def startRecording (s : Session) (env : StartEnv) : Session :=
  (startRecordingR s env).next

/-- `stopRecording`: if a recorder is held and we are recording, clear
the timer and the recording flag (the recorder's asynchronous `onstop`
is modelled separately by `finalize`). -/
def stopRecording (s : Session) : Session :=
  if s.hasRecorder && s.isRecording then
    { s with timerActive := false, isRecording := false }
  else s

/-- `resetRecording`: discard the artifact, revoke the object URL when
one exists, clear the counter, the error and the chunk buffer. -/
def resetRecording (s : Session) : Session :=
  { s with audioBlob := none,
           urlLive := if s.audioUrl ≠ "" then false else s.urlLive,
           audioUrl := "",
           recordingTime := 0,
           error := "",
           chunks := [] }

/-- The `useEffect` cleanup run on component teardown: clear the
interval, revoke the object URL when one exists, and stop every track
of a held stream (the refs themselves are not nulled). -/
def dispose (s : Session) : Session :=
  { s with timerActive := false,
           urlLive := if s.audioUrl ≠ "" then false else s.urlLive,
           stream := s.stream.map (fun st => { st with tracksLive := false }) }

/-- The render guard on the start button: it is shown exactly when not
recording and no artifact exists. -/
def showStartButton (s : Session) : Bool :=
  !s.isRecording && s.audioBlob.isNone

/-- An authenticated identity as typed in `lib/supabase.ts`. -/
structure SupaUser where
  id : String
  email : Option String
deriving Repr, DecidableEq

/-- The fixed admin email hardcoded in `lib/supabase.ts`. -/
def adminEmail : String := "banuweb3@gmail.com"

/-- `isAdmin`: `user?.email === 'banuweb3@gmail.com'`. -/
def isAdmin (user : Option SupaUser) : Bool :=
  match user with
  | some u => u.email == some adminEmail
  | none => false

/-- A row of the `recording_logs` table as inserted by the app. -/
structure RecordingLog where
  candidate_name : String
  question_label : String
  question_position : Nat
  file_url : String
  user_id : Option String
deriving Repr, DecidableEq

/-- The `user_id` equality filter the recordings list applies: none for
the admin (unrestricted), the identity's own id otherwise. -/
def fetchRecordingsFilter (user : SupaUser) : Option String :=
  if isAdmin (some user) then none else some user.id

/-- Whether a row passes the filter of a recordings-list query. -/
def rowMatches (filt : Option String) (r : RecordingLog) : Bool :=
  match filt with
  | none => true
  | some uid => r.user_id == some uid

/-- The rows the `fetchRecordings` query selects from the table. -/
def fetchRecordings (user : SupaUser) (rows : List RecordingLog) : List RecordingLog :=
  rows.filter (rowMatches (fetchRecordingsFilter user))

/-- Strip leading and trailing whitespace from a character list. -/
def trimChars (l : List Char) : List Char :=
  (((l.dropWhile Char.isWhitespace).reverse).dropWhile Char.isWhitespace).reverse

/-- JavaScript `String.prototype.trim`: whitespace removed from both
ends, modelled over the string's characters. -/
def jsTrim (s : String) : String := ⟨trimChars s.data⟩

/-- The `App` component's form and upload state. -/
structure AppState where
  candidateName : String
  questionLabel : String
  questionPosition : Nat
  isUploading : Bool
  uploadSuccess : Bool
  uploadError : String
deriving Repr, DecidableEq

/-- A storage upload performed by the workflow: target bucket and path,
the blob handed to storage, and the upsert flag. -/
structure StorageUpload where
  bucket : String
  path : String
  blob : Blob
  upsert : Bool
deriving Repr, DecidableEq

/-- The backend outcomes a `handleRecordingComplete` call runs against:
whether the storage upload rejects (with an error message), whether the
database insert rejects, and the public URL the storage API reports for
a path. -/
structure UploadEnv where
  uploadErr : Option String
  dbErr : Option String
  publicUrlOf : String → String

/-- The result of a `handleRecordingComplete` call: the next `App`
state, the storage uploads attempted, and the rows handed to the
database insert. -/
structure UploadResult where
  state : AppState
  uploads : List StorageUpload
  inserts : List RecordingLog
deriving Repr, DecidableEq

/-- `App.handleRecordingComplete` from `src/unnamed/part_003`: validate
the trimmed candidate name and question label, build the
`recordings/<name>/<uuid>.wav` path, re-wrap the artifact bytes in an
`audio/wav` blob, upload, insert the metadata row, and on full success
clear the form fields and reset the question position to 1. -/
def handleRecordingComplete (app : AppState) (user : Option SupaUser)
    (audioBlob : Blob) (fileId : String) (env : UploadEnv) : UploadResult :=
  if jsTrim app.candidateName = "" then
    { state := { app with uploadError := "Please enter candidate name" },
      uploads := [], inserts := [] }
  else if jsTrim app.questionLabel = "" then
    { state := { app with uploadError := "Please enter question label" },
      uploads := [], inserts := [] }
  else
    let app1 := { app with isUploading := true, uploadError := "", uploadSuccess := false }
    let fileName := fileId ++ ".wav"
    let filePath := "recordings/" ++ jsTrim app.candidateName ++ "/" ++ fileName
    let wavBlob : Blob := { data := audioBlob.data, type := "audio/wav" }
    let upload : StorageUpload :=
      { bucket := "recordings", path := filePath, blob := wavBlob, upsert := false }
    match env.uploadErr with
    | some msg =>
        { state := { app1 with uploadError := msg, isUploading := false },
          uploads := [upload], inserts := [] }
    | none =>
        let row : RecordingLog :=
          { candidate_name := jsTrim app.candidateName,
            question_label := jsTrim app.questionLabel,
            question_position := app.questionPosition,
            file_url := env.publicUrlOf filePath,
            user_id := user.map SupaUser.id }
        match env.dbErr with
        | some msg =>
            { state := { app1 with uploadError := msg, isUploading := false },
              uploads := [upload], inserts := [row] }
        | none =>
            let app2 := { app1 with uploadSuccess := true, candidateName := "",
                                    questionLabel := "", questionPosition := 1,
                                    isUploading := false }
            { state := app2, uploads := [upload], inserts := [row] }

/-- The predicate under which `ondataavailable` keeps a fragment. -/
def isNonEmptyChunk (c : Blob) : Bool := decide (0 < c.size)

theorem foldl_onChunkAvailable (frags : List Blob) (s : Session) :
    frags.foldl onChunkAvailable s =
      { s with chunks := s.chunks ++ frags.filter isNonEmptyChunk } := by
  induction frags generalizing s with
  | nil => simp
  | cons c cs ih =>
      by_cases h : 0 < c.size
      · simp [List.foldl_cons, onChunkAvailable, h, ih, isNonEmptyChunk,
          List.filter_cons]
      · simp [List.foldl_cons, onChunkAvailable, h, ih, isNonEmptyChunk,
          List.filter_cons]

theorem totalSize_eq_sum (l : List Blob) :
    totalSize l = (l.map Blob.size).sum := by
  have h : ∀ (l : List Blob) (n : Nat),
      l.foldl (fun sum c => sum + c.size) n = n + (l.map Blob.size).sum := by
    intro l
    induction l with
    | nil => simp
    | cons c cs ih => intro n; simp [List.foldl_cons, ih]; omega
  simpa [totalSize] using h l 0

theorem length_concatData (l : List Blob) :
    (concatData l).length = (l.map Blob.size).sum := by
  simp only [concatData, List.length_flatten, List.map_map]
  rfl

theorem sum_filter_sizes (l : List Blob) :
    ((l.filter isNonEmptyChunk).map Blob.size).sum = (l.map Blob.size).sum := by
  induction l with
  | nil => rfl
  | cons c cs ih =>
      by_cases h : 0 < c.size
      · simp [isNonEmptyChunk, List.filter_cons, h, ih]
      · have hz : c.size = 0 := by omega
        simp [isNonEmptyChunk, List.filter_cons, h, hz, ih]

theorem totalSize_pos (l : List Blob) (hne : l ≠ [])
    (hall : ∀ c ∈ l, 0 < c.size) : 0 < totalSize l := by
  rw [totalSize_eq_sum]
  cases l with
  | nil => exact absurd rfl hne
  | cons c cs =>
      have hc := hall c (by simp)
      simp only [List.map_cons, List.sum_cons]
      omega

/-- On a non-empty chunk buffer of positive total size, `onstop`
assembles the artifact, creates the preview URL and clears the stream. -/
theorem finalize_success (s : Session) (hne : s.chunks ≠ [])
    (hpos : 0 < totalSize s.chunks) :
    finalize s = { s with
      audioBlob := some ⟨concatData s.chunks, firstChunkType s.chunks⟩,
      audioUrl := "blob:recording", urlLive := true, stream := none } := by
  unfold finalize
  rw [if_neg (by simpa using hne), if_neg (by omega)]
  rw [if_pos (by
    show 0 < (Blob.mk (concatData s.chunks) (firstChunkType s.chunks)).size
    have h1 := length_concatData s.chunks
    have h2 := totalSize_eq_sum s.chunks
    simp only [Blob.size] at h1 ⊢
    omega)]

/-- With no accumulated chunks, `onstop` only sets the error message. -/
theorem finalize_noChunks (s : Session) (h : s.chunks = []) :
    finalize s =
      { s with error := "No audio data was recorded. Please try again." } := by
  unfold finalize
  rw [if_pos (by simp [h])]

/-- With chunks of zero total size, `onstop` only sets the error message. -/
theorem finalize_zeroTotal (s : Session) (hne : s.chunks ≠ [])
    (h : totalSize s.chunks = 0) :
    finalize s =
      { s with error := "Recorded audio file is empty. Please check your microphone and try again." } := by
  unfold finalize
  rw [if_neg (by simpa using hne), if_pos h]

theorem stateOf_eq_error (s : Session) (hrec : s.isRecording = false)
    (he : s.error ≠ "") : stateOf s = .Error := by
  simp [stateOf, hrec, he]

theorem errorMessageFor_ne_empty (e : JsError) : errorMessageFor e ≠ "" := by
  intro h
  have h2 := congrArg (fun s => s.data.head?) h
  simp [errorMessageFor] at h2

/-- C1: every sequence of chunk-available events followed by
finalization yields an artifact that is the concatenation of exactly
the non-empty fragments in emission order, of byte length the sum of
all fragment lengths, with the error left unchanged (empty fragments
are skipped without error). -/
theorem c1_finalized_artifact_concat (frags : List Blob) (s : Session)
    (hchunks : s.chunks = [])
    (hne : frags.filter isNonEmptyChunk ≠ []) :
    ∃ b : Blob,
      (finalize (frags.foldl onChunkAvailable s)).audioBlob = some b ∧
      b.data = concatData (frags.filter isNonEmptyChunk) ∧
      b.data.length = (frags.map Blob.size).sum ∧
      (finalize (frags.foldl onChunkAvailable s)).error = s.error := by
  rw [foldl_onChunkAvailable, hchunks, List.nil_append]
  have hall : ∀ c ∈ frags.filter isNonEmptyChunk, 0 < c.size := by
    intro c hc
    simpa [isNonEmptyChunk] using (List.mem_filter.mp hc).2
  have hpos : 0 < totalSize (frags.filter isNonEmptyChunk) :=
    totalSize_pos _ hne hall
  rw [finalize_success { s with chunks := frags.filter isNonEmptyChunk }
        (by simpa using hne) (by simpa using hpos)]
  refine ⟨_, rfl, rfl, ?_, rfl⟩
  simp only [length_concatData, sum_filter_sizes]

/-- Concrete C1 scenario: fragments of sizes 10, 0 and 20 delivered
while recording. -/
def c1Frags : List Blob :=
  [⟨List.replicate 10 0, "audio/webm"⟩, ⟨[], "audio/webm"⟩,
   ⟨List.replicate 20 0, "audio/webm"⟩]

/-- A session that has just started recording. -/
def c1Start : Session :=
  { initialSession with isRecording := true, hasRecorder := true,
                        stream := some ⟨1, true⟩, timerActive := true }

/-- Witness for C1: the 10/0/20 scenario produces a 30-byte artifact. -/
theorem c1_finalized_artifact_concat_witness :
    c1Start.chunks = [] ∧ c1Frags.filter isNonEmptyChunk ≠ [] ∧
    (c1Frags.map Blob.size).sum = 30 ∧
    ∃ b : Blob,
      (finalize (c1Frags.foldl onChunkAvailable c1Start)).audioBlob = some b ∧
      b.data = concatData (c1Frags.filter isNonEmptyChunk) ∧
      b.data.length = (c1Frags.map Blob.size).sum ∧
      (finalize (c1Frags.foldl onChunkAvailable c1Start)).error = c1Start.error :=
  ⟨by decide, by decide, by decide,
   c1_finalized_artifact_concat c1Frags c1Start (by decide) (by decide)⟩

/-- C2: finalization with zero chunks, or zero total size, ends in the
Error state with one of the two empty-recording messages, both
distinguishable from every acquisition error message, and never yields
an artifact; an artifact exists afterwards if and only if the chunk
buffer was non-empty of positive total size, and any artifact produced
has positive size with the session Stopped. -/
theorem c2_empty_finalization (s : Session)
    (hb : s.audioBlob = none) (he : s.error = "") (hr : s.isRecording = false) :
    ((finalize s).audioBlob.isSome ↔ (s.chunks ≠ [] ∧ 0 < totalSize s.chunks)) ∧
    (s.chunks = [] ∨ totalSize s.chunks = 0 →
       stateOf (finalize s) = .Error ∧ (finalize s).audioBlob = none ∧
       ((finalize s).error = "No audio data was recorded. Please try again." ∨
        (finalize s).error = "Recorded audio file is empty. Please check your microphone and try again.") ∧
       ∀ e : JsError, (finalize s).error ≠ errorMessageFor e) ∧
    (∀ b : Blob, (finalize s).audioBlob = some b →
       0 < b.size ∧ stateOf (finalize s) = .Stopped) := by
  by_cases hc : s.chunks = []
  · rw [finalize_noChunks s hc]
    refine ⟨by simp [hb, hc], fun _ => ⟨stateOf_eq_error _ hr (by simp), by simpa using hb, Or.inl rfl, ?_⟩,
            fun b hbe => by rw [hb] at hbe; cases hbe⟩
    intro e hEq
    have h2 := congrArg (fun s => s.data.head?) hEq
    simp [errorMessageFor] at h2
  · by_cases ht : totalSize s.chunks = 0
    · rw [finalize_zeroTotal s hc ht]
      refine ⟨by simp [hb, ht], fun _ => ⟨stateOf_eq_error _ hr (by simp), by simpa using hb, Or.inr rfl, ?_⟩,
              fun b hbe => by rw [hb] at hbe; cases hbe⟩
      intro e hEq
      have h2 := congrArg (fun s => s.data.head?) hEq
      simp [errorMessageFor] at h2
    · have hpos : 0 < totalSize s.chunks := Nat.pos_of_ne_zero ht
      rw [finalize_success s hc hpos]
      refine ⟨by simp [hc, hpos], fun hor => ?_, fun b hbe => ?_⟩
      · rcases hor with h | h
        · exact absurd h hc
        · exact absurd h ht
      · have hbb : b = ⟨concatData s.chunks, firstChunkType s.chunks⟩ := by
          simpa using hbe.symm
        constructor
        · rw [hbb]
          show 0 < (concatData s.chunks).length
          rw [length_concatData, ← totalSize_eq_sum]
          exact hpos
        · simp [stateOf, hr, he]

/-- A session that stopped recording with no chunks delivered. -/
def c2Stop : Session :=
  { initialSession with hasRecorder := true, stream := some ⟨1, true⟩ }

/-- Witness for C2: stopping with zero chunks yields the Error state,
no artifact, and the no-audio message. -/
theorem c2_empty_finalization_witness :
    c2Stop.audioBlob = none ∧ c2Stop.error = "" ∧
    c2Stop.isRecording = false ∧ c2Stop.chunks = [] ∧
    stateOf (finalize c2Stop) = .Error ∧
    (finalize c2Stop).audioBlob = none ∧
    ((finalize c2Stop).error = "No audio data was recorded. Please try again." ∨
     (finalize c2Stop).error = "Recorded audio file is empty. Please check your microphone and try again.") :=
  ⟨rfl, rfl, rfl, rfl,
   ((c2_empty_finalization c2Stop rfl rfl rfl).2.1 (Or.inl rfl)).1,
   ((c2_empty_finalization c2Stop rfl rfl rfl).2.1 (Or.inl rfl)).2.1,
   ((c2_empty_finalization c2Stop rfl rfl rfl).2.1 (Or.inl rfl)).2.2.1⟩

/-- A session actively recording with one accumulated chunk. -/
def c3Recording : Session :=
  { initialSession with isRecording := true, hasRecorder := true,
                        chunks := [⟨[1], "audio/webm"⟩],
                        stream := some ⟨1, true⟩, timerActive := true }

/-- An environment in which device acquisition succeeds. -/
def c3Env : StartEnv :=
  { acq := .ok ⟨1, true⟩, supported := fun _ => false, ctorFail := none }

/-- Counterexample to C3: invoking `startRecording` while Recording is
not rejected — a device request is issued and the chunk buffer is
cleared, so the session state does not keep its prior values. -/
theorem c3_counterexample :
    stateOf c3Recording = .Recording ∧
    (startRecordingR c3Recording c3Env).deviceRequested = true ∧
    (startRecordingR c3Recording c3Env).next.chunks ≠ c3Recording.chunks := by
  decide

/-- C3 amended: `startRecording` itself has no state-based guard — it
issues a device request from every state, and on success reinitializes
the chunk buffer, timer and error; the only rejection is at the UI
layer, which renders the start control exactly when the session is not
recording and holds no artifact. -/
theorem c3_start_no_guard (s : Session) (env : StartEnv) :
    (startRecordingR s env).deviceRequested = true ∧
    (showStartButton s = true ↔ (s.isRecording = false ∧ s.audioBlob = none)) ∧
    (∀ stream : Stream, env.acq = .ok stream → 0 < stream.numAudioTracks →
       env.ctorFail = none →
       (startRecording s env).chunks = [] ∧
       (startRecording s env).recordingTime = 0 ∧
       (startRecording s env).error = "" ∧
       (startRecording s env).isRecording = true) := by
  obtain ⟨acq, sup, cf⟩ := env
  refine ⟨?_, ?_, ?_⟩
  · cases acq with
    | err e => rfl
    | ok stream =>
        by_cases h : stream.numAudioTracks = 0
        · simp [startRecordingR, h]
        · cases cf <;> simp [startRecordingR, h]
  · simp [showStartButton, Option.isNone_iff_eq_none]
  · intro stream hacq h0 hcf
    cases hacq
    cases hcf
    have h1 : ¬ stream.numAudioTracks = 0 := by omega
    simp [startRecording, startRecordingR, h1]

/-- Witness for C3 amended: from the idle state, a successful start
issues the device request and begins recording with an empty buffer. -/
theorem c3_start_no_guard_witness :
    (startRecordingR initialSession c3Env).deviceRequested = true ∧
    (startRecording initialSession c3Env).chunks = [] ∧
    (startRecording initialSession c3Env).isRecording = true :=
  ⟨(c3_start_no_guard initialSession c3Env).1,
   ((c3_start_no_guard initialSession c3Env).2.2 ⟨1, true⟩ rfl (by decide) rfl).1,
   ((c3_start_no_guard initialSession c3Env).2.2 ⟨1, true⟩ rfl (by decide) rfl).2.2.2⟩

/-- An environment in which acquisition succeeds but the stream carries
no audio tracks. -/
def c4EnvNoTracks : StartEnv :=
  { acq := .ok ⟨0, true⟩, supported := fun _ => false, ctorFail := none }

/-- Counterexample to C4: a failure after acquisition (stream with zero
audio tracks) ends in Error, but the acquired device handle stays set
with its tracks live — it is not released by the failure path. -/
theorem c4_counterexample :
    stateOf (startRecording initialSession c4EnvNoTracks) = .Error ∧
    (startRecording initialSession c4EnvNoTracks).stream = some ⟨0, true⟩ := by
  decide

/-- C4 amended: every acquisition failure transitions to Error with the
message determined by the error name, leaving the previously held
stream untouched — in particular on permission denial the handle is
never set — and the four named failure conditions map to pairwise
distinct messages; however a handle acquired before a post-acquisition
failure (such as a stream with no audio tracks) is retained, not
released. -/
theorem c4_start_failures (s : Session) (env : StartEnv) :
    (∀ e : JsError, env.acq = .err e →
       stateOf (startRecording s env) = .Error ∧
       (startRecording s env).error = errorMessageFor e ∧
       (startRecording s env).stream = s.stream) ∧
    (∀ e : JsError, env.acq = .err e → s.stream = none →
       (startRecording s env).stream = none) ∧
    (∀ stream : Stream, env.acq = .ok stream → stream.numAudioTracks = 0 →
       stateOf (startRecording s env) = .Error ∧
       (startRecording s env).stream = some stream) ∧
    (∀ x y : String,
       errorMessageFor ⟨"NotAllowedError", x⟩ ≠ errorMessageFor ⟨"NotFoundError", y⟩ ∧
       errorMessageFor ⟨"NotAllowedError", x⟩ ≠ errorMessageFor ⟨"NotSupportedError", y⟩ ∧
       errorMessageFor ⟨"NotAllowedError", x⟩ ≠ errorMessageFor ⟨"NotReadableError", y⟩ ∧
       errorMessageFor ⟨"NotFoundError", x⟩ ≠ errorMessageFor ⟨"NotSupportedError", y⟩ ∧
       errorMessageFor ⟨"NotFoundError", x⟩ ≠ errorMessageFor ⟨"NotReadableError", y⟩ ∧
       errorMessageFor ⟨"NotSupportedError", x⟩ ≠ errorMessageFor ⟨"NotReadableError", y⟩) := by
  obtain ⟨acq, sup, cf⟩ := env
  refine ⟨?_, ?_, ?_, ?_⟩
  · intro e hacq
    cases hacq
    exact ⟨stateOf_eq_error _ rfl (errorMessageFor_ne_empty e), rfl, rfl⟩
  · intro e hacq hstream
    cases hacq
    simpa [startRecording, startRecordingR] using hstream
  · intro stream hacq h0
    cases hacq
    constructor
    · simp only [startRecording, startRecordingR, h0, if_pos]
      exact stateOf_eq_error _ rfl
        (errorMessageFor_ne_empty ⟨"Error", "No audio tracks found in media stream"⟩)
    · simp [startRecording, startRecordingR, h0]
  · intro x y
    have hA : errorMessageFor ⟨"NotAllowedError", x⟩ =
        "Error accessing microphone. Please allow microphone access and try again." := rfl
    have hB : errorMessageFor ⟨"NotFoundError", x⟩ =
        "Error accessing microphone. No microphone found. Please connect a microphone." := rfl
    have hC : errorMessageFor ⟨"NotSupportedError", x⟩ =
        "Error accessing microphone. Audio recording is not supported in this browser." := rfl
    have hD : errorMessageFor ⟨"NotFoundError", y⟩ =
        "Error accessing microphone. No microphone found. Please connect a microphone." := rfl
    have hE : errorMessageFor ⟨"NotSupportedError", y⟩ =
        "Error accessing microphone. Audio recording is not supported in this browser." := rfl
    have hF : errorMessageFor ⟨"NotReadableError", y⟩ =
        "Error accessing microphone. Microphone is being used by another application." := rfl
    rw [hA, hB, hC, hD, hE, hF]
    refine ⟨?_, ?_, ?_, ?_, ?_, ?_⟩ <;> decide

/-- An environment in which the user denies the permission prompt. -/
def c4EnvDenied : StartEnv :=
  { acq := .err ⟨"NotAllowedError", "Permission denied"⟩,
    supported := fun _ => false, ctorFail := none }

/-- Witness for C4 amended: permission denial from Idle yields Error
with the permission message, and the device handle is never set. -/
theorem c4_start_failures_witness :
    stateOf (startRecording initialSession c4EnvDenied) = .Error ∧
    (startRecording initialSession c4EnvDenied).error =
      errorMessageFor ⟨"NotAllowedError", "Permission denied"⟩ ∧
    (startRecording initialSession c4EnvDenied).stream = none :=
  ⟨((c4_start_failures initialSession c4EnvDenied).1 _ rfl).1,
   ((c4_start_failures initialSession c4EnvDenied).1 _ rfl).2.1,
   (c4_start_failures initialSession c4EnvDenied).2.1 _ rfl rfl⟩

/-- A session actively recording with a live device handle and no
chunks delivered yet. -/
def c5Recording : Session :=
  { initialSession with isRecording := true, hasRecorder := true,
                        stream := some ⟨1, true⟩, timerActive := true }

/-- Counterexample to C5: stopping with no chunks leaves Recording into
Error through the early return of `onstop`, which skips the stream
cleanup — the device handle stays held with its tracks live. -/
theorem c5_counterexample :
    stateOf (finalize (stopRecording c5Recording)) = .Error ∧
    (finalize (stopRecording c5Recording)).stream = some ⟨1, true⟩ := by
  decide

/-- C5 amended: `dispose` stops the tracks of a held stream, clears the
interval timer, revokes a live playback reference, and is idempotent;
the device handle is cleared on the successful finalization path, but
the empty-recording error path leaves the handle exactly as it was,
held until disposal. -/
theorem c5_dispose_release (s : Session) :
    (∀ st : Stream, (dispose s).stream = some st → st.tracksLive = false) ∧
    (dispose s).timerActive = false ∧
    (s.audioUrl ≠ "" → (dispose s).urlLive = false) ∧
    dispose (dispose s) = dispose s ∧
    (s.chunks ≠ [] → 0 < totalSize s.chunks → (finalize s).stream = none) ∧
    (s.chunks = [] → (finalize s).stream = s.stream) := by
  refine ⟨?_, rfl, ?_, ?_, ?_, ?_⟩
  · intro st h
    simp only [dispose, Option.map_eq_some'] at h
    obtain ⟨a, -, ha⟩ := h
    rw [← ha]
  · intro h
    simp [dispose, h]
  · cases hs : s.stream <;> by_cases h : s.audioUrl = "" <;>
      simp [dispose, hs, h]
  · intro h1 h2
    rw [finalize_success s h1 h2]
  · intro h
    rw [finalize_noChunks s h]

/-- A torn-down session still holding a live stream, an active timer
and a live preview URL. -/
def c5Held : Session :=
  { initialSession with stream := some ⟨1, true⟩, timerActive := true,
                        audioUrl := "blob:recording", urlLive := true,
                        error := "No audio data was recorded. Please try again." }

/-- Witness for C5 amended: disposing a session that holds resources
stops the tracks, clears the timer, revokes the URL, and a second
dispose changes nothing. -/
theorem c5_dispose_release_witness :
    (⟨1, false⟩ : Stream).tracksLive = false ∧
    (dispose c5Held).timerActive = false ∧
    (dispose c5Held).urlLive = false ∧
    dispose (dispose c5Held) = dispose c5Held :=
  ⟨(c5_dispose_release c5Held).1 ⟨1, false⟩ (by decide),
   (c5_dispose_release c5Held).2.1,
   (c5_dispose_release c5Held).2.2.1 (by decide),
   (c5_dispose_release c5Held).2.2.2.1⟩

/-- C6: whatever the artifact's recorded MIME type, the upload workflow
attempts exactly one storage upload, of a blob with the same bytes but
declared type `audio/wav`, at path
`recordings/<trimmed candidate name>/<uuid>.wav`. -/
theorem c6_wav_rewrap (app : AppState) (user : Option SupaUser)
    (audioBlob : Blob) (fileId : String) (env : UploadEnv)
    (hname : jsTrim app.candidateName ≠ "") (hlabel : jsTrim app.questionLabel ≠ "") :
    (handleRecordingComplete app user audioBlob fileId env).uploads =
      [{ bucket := "recordings",
         path := "recordings/" ++ jsTrim app.candidateName ++ "/" ++ (fileId ++ ".wav"),
         blob := { data := audioBlob.data, type := "audio/wav" },
         upsert := false }] := by
  obtain ⟨ue, de, pf⟩ := env
  unfold handleRecordingComplete
  rw [if_neg hname, if_neg hlabel]
  cases ue <;> cases de <;> rfl

/-- A filled-in recording form. -/
def c6App : AppState :=
  { candidateName := " Jane Doe ", questionLabel := "Q1", questionPosition := 2,
    isUploading := false, uploadSuccess := false, uploadError := "" }

/-- A backend where the upload and the insert both succeed. -/
def c6Env : UploadEnv :=
  { uploadErr := none, dbErr := none, publicUrlOf := fun p => "https://cdn/" ++ p }

/-- Witness for C6: a webm-typed artifact is uploaded as `audio/wav`
under `recordings/Jane Doe/uuid-1.wav` with its bytes unchanged. -/
theorem c6_wav_rewrap_witness :
    (handleRecordingComplete c6App none ⟨[7, 8], "audio/webm"⟩ "uuid-1" c6Env).uploads =
      [{ bucket := "recordings",
         path := "recordings/" ++ jsTrim c6App.candidateName ++ "/" ++ ("uuid-1" ++ ".wav"),
         blob := { data := [7, 8], type := "audio/wav" },
         upsert := false }] :=
  c6_wav_rewrap c6App none ⟨[7, 8], "audio/webm"⟩ "uuid-1" c6Env (by decide) (by decide)

theorem findSupportedType_spec (l : List String) (sup : String → Bool) :
    (∃ pre post, l = pre ++ findSupportedType l sup :: post ∧
        sup (findSupportedType l sup) = true ∧ ∀ t ∈ pre, sup t = false) ∨
      ((∀ t ∈ l, sup t = false) ∧ findSupportedType l sup = "audio/webm") := by
  induction l with
  | nil => right; exact ⟨by simp, rfl⟩
  | cons t rest ih =>
      by_cases h : sup t = true
      · left
        exact ⟨[], rest, by simp [findSupportedType, h],
               by simp [findSupportedType, h], by simp⟩
      · have hf : sup t = false := by simpa using h
        have hstep : findSupportedType (t :: rest) sup = findSupportedType rest sup := by
          simp [findSupportedType, hf]
        rcases ih with ⟨pre, post, heq, hsup, hpre⟩ | ⟨hall, heq⟩
        · left
          refine ⟨t :: pre, post, ?_, ?_, ?_⟩
          · rw [hstep, List.cons_append, ← heq]
          · rw [hstep]; exact hsup
          · intro u hu
            rcases List.mem_cons.mp hu with rfl | hu2
            · exact hf
            · exact hpre u hu2
        · right
          refine ⟨?_, by rw [hstep]; exact heq⟩
          intro u hu
          rcases List.mem_cons.mp hu with rfl | hu2
          · exact hf
          · exact hall u hu2

/-- An environment whose probe supports only `audio/mp4`. -/
def c7Env : StartEnv :=
  { acq := .ok ⟨1, true⟩, supported := fun t => t == "audio/mp4", ctorFail := none }

/-- Counterexample to C7: with only `audio/mp4` supported the session
negotiates `audio/mp4`, but when the first chunk carries no type the
assembled artifact gets the literal fallback `audio/webm`, not the
negotiated type. -/
theorem c7_counterexample :
    (startRecording initialSession c7Env).mimeType = "audio/mp4" ∧
    (finalize (stopRecording (onChunkAvailable
        (startRecording initialSession c7Env) ⟨[1], ""⟩))).mimeType = "audio/mp4" ∧
    (finalize (stopRecording (onChunkAvailable
        (startRecording initialSession c7Env) ⟨[1], ""⟩))).audioBlob =
      some ⟨[1], "audio/webm"⟩ := by
  decide

/-- C7 amended: negotiation returns the first entry of the preference
list the probe supports, with fixed fallback `audio/webm`; the
negotiated type is never changed by the chunk, stop or finalize events;
and the assembled artifact carries the first chunk's type, falling back
to the literal `audio/webm` (not the negotiated type) when the first
chunk carries no type. -/
theorem c7_mime_negotiation (sup : String → Bool) (s : Session) (c : Blob) :
    ((∃ pre post, mimeCandidates = pre ++ getSupportedMimeType sup :: post ∧
        sup (getSupportedMimeType sup) = true ∧ ∀ t ∈ pre, sup t = false) ∨
      ((∀ t ∈ mimeCandidates, sup t = false) ∧
        getSupportedMimeType sup = "audio/webm")) ∧
    (onChunkAvailable s c).mimeType = s.mimeType ∧
    (stopRecording s).mimeType = s.mimeType ∧
    (finalize s).mimeType = s.mimeType ∧
    (s.chunks ≠ [] → 0 < totalSize s.chunks →
       ∃ b, (finalize s).audioBlob = some b ∧ b.type = firstChunkType s.chunks) ∧
    (∀ c0 rest, s.chunks = c0 :: rest →
       firstChunkType s.chunks = if c0.type = "" then "audio/webm" else c0.type) := by
  refine ⟨findSupportedType_spec mimeCandidates sup, ?_, ?_, ?_, ?_, ?_⟩
  · by_cases h : 0 < c.size <;> simp [onChunkAvailable, h]
  · unfold stopRecording
    split <;> rfl
  · unfold finalize
    split
    · rfl
    · split
      · rfl
      · split <;> rfl
  · intro h1 h2
    rw [finalize_success s h1 h2]
    exact ⟨_, rfl, rfl⟩
  · intro c0 rest h
    rw [h]
    rfl

/-- Witness for C7 amended: a session holding one `audio/mp4` chunk
finalizes to an artifact carrying the first chunk's type. -/
theorem c7_mime_negotiation_witness :
    (stopRecording { initialSession with chunks := [⟨[1], "audio/mp4"⟩] }).mimeType =
      ({ initialSession with chunks := [⟨[1], "audio/mp4"⟩] } : Session).mimeType ∧
    ∃ b, (finalize { initialSession with chunks := [⟨[1], "audio/mp4"⟩] }).audioBlob = some b ∧
      b.type = firstChunkType ({ initialSession with chunks := [⟨[1], "audio/mp4"⟩] } : Session).chunks :=
  ⟨(c7_mime_negotiation (fun _ => false) { initialSession with chunks := [⟨[1], "audio/mp4"⟩] } ⟨[], ""⟩).2.2.1,
   (c7_mime_negotiation (fun _ => false) { initialSession with chunks := [⟨[1], "audio/mp4"⟩] } ⟨[], ""⟩).2.2.2.2.1
     (by decide) (by decide)⟩

/-- C8: reset from Stopped or Error returns the session to Idle with an
empty chunk buffer, no artifact, zero elapsed time, a cleared error and
the playback URL revoked. -/
theorem c8_reset_to_idle (s : Session)
    (h : stateOf s = .Stopped ∨ stateOf s = .Error) :
    stateOf (resetRecording s) = .Idle ∧
    (resetRecording s).chunks = [] ∧
    (resetRecording s).audioBlob = none ∧
    (resetRecording s).recordingTime = 0 ∧
    (resetRecording s).error = "" ∧
    (resetRecording s).audioUrl = "" ∧
    (s.audioUrl ≠ "" → (resetRecording s).urlLive = false) := by
  have hrec : s.isRecording = false := by
    cases hR : s.isRecording
    · rfl
    · rcases h with h | h <;> simp [stateOf, hR] at h
  refine ⟨?_, rfl, rfl, rfl, rfl, rfl, ?_⟩
  · simp [stateOf, resetRecording, hrec]
  · intro h2
    simp [resetRecording, h2]

/-- A session holding a finalized artifact (the Stopped state). -/
def c8Stopped : Session :=
  { initialSession with audioBlob := some ⟨[1], "audio/webm"⟩,
                        audioUrl := "blob:recording", urlLive := true }

/-- Witness for C8: resetting a Stopped session yields Idle with
everything cleared and the preview URL revoked. -/
theorem c8_reset_to_idle_witness :
    (stateOf c8Stopped = .Stopped ∨ stateOf c8Stopped = .Error) ∧
    stateOf (resetRecording c8Stopped) = .Idle ∧
    (resetRecording c8Stopped).chunks = [] ∧
    (resetRecording c8Stopped).audioBlob = none ∧
    (resetRecording c8Stopped).recordingTime = 0 ∧
    (resetRecording c8Stopped).error = "" ∧
    (resetRecording c8Stopped).urlLive = false :=
  ⟨Or.inl (by decide),
   (c8_reset_to_idle c8Stopped (Or.inl (by decide))).1,
   (c8_reset_to_idle c8Stopped (Or.inl (by decide))).2.1,
   (c8_reset_to_idle c8Stopped (Or.inl (by decide))).2.2.1,
   (c8_reset_to_idle c8Stopped (Or.inl (by decide))).2.2.2.1,
   (c8_reset_to_idle c8Stopped (Or.inl (by decide))).2.2.2.2.1,
   (c8_reset_to_idle c8Stopped (Or.inl (by decide))).2.2.2.2.2.2 (by decide)⟩

/-- C9: the recordings query is the full table exactly for the
privileged identity and is filtered to `user_id = <own id>` otherwise,
where privileged means the email equals the fixed admin email. -/
theorem c9_recordings_query (user : SupaUser) (rows : List RecordingLog) :
    isAdmin (some user) = (user.email == some adminEmail) ∧
    (isAdmin (some user) = true → fetchRecordings user rows = rows) ∧
    (isAdmin (some user) = false →
       fetchRecordings user rows = rows.filter (fun r => r.user_id == some user.id)) := by
  refine ⟨rfl, ?_, ?_⟩
  · intro h
    simp [fetchRecordings, fetchRecordingsFilter, h, rowMatches]
  · intro h
    simp only [fetchRecordings, fetchRecordingsFilter, h, Bool.false_eq_true,
      if_false]
    rfl

/-- Two table rows owned by different identities. -/
def c9Rows : List RecordingLog :=
  [{ candidate_name := "A", question_label := "Q1", question_position := 1,
     file_url := "https://cdn/a.wav", user_id := some "uid-2" },
   { candidate_name := "B", question_label := "Q2", question_position := 2,
     file_url := "https://cdn/b.wav", user_id := some "uid-3" }]

/-- Witness for C9: the admin email sees both rows; another user sees
only rows filtered to their own id. -/
theorem c9_recordings_query_witness :
    fetchRecordings ⟨"uid-1", some "banuweb3@gmail.com"⟩ c9Rows = c9Rows ∧
    fetchRecordings ⟨"uid-2", some "user@example.com"⟩ c9Rows =
      c9Rows.filter (fun r => r.user_id == some "uid-2") :=
  ⟨(c9_recordings_query ⟨"uid-1", some "banuweb3@gmail.com"⟩ c9Rows).2.1 (by decide),
   (c9_recordings_query ⟨"uid-2", some "user@example.com"⟩ c9Rows).2.2 (by decide)⟩

/-- C10: with an empty trimmed candidate name or question label the
upload workflow only sets the matching validation message — no storage
upload, no database insert, all other state unchanged; on a fully
successful upload it clears the candidate name and question label and
resets the question position to 1. -/
theorem c10_upload_validation (app : AppState) (user : Option SupaUser)
    (audioBlob : Blob) (fileId : String) (env : UploadEnv) :
    (jsTrim app.candidateName = "" →
       handleRecordingComplete app user audioBlob fileId env =
         { state := { app with uploadError := "Please enter candidate name" },
           uploads := [], inserts := [] }) ∧
    (jsTrim app.candidateName ≠ "" → jsTrim app.questionLabel = "" →
       handleRecordingComplete app user audioBlob fileId env =
         { state := { app with uploadError := "Please enter question label" },
           uploads := [], inserts := [] }) ∧
    (jsTrim app.candidateName ≠ "" → jsTrim app.questionLabel ≠ "" →
       env.uploadErr = none → env.dbErr = none →
       (handleRecordingComplete app user audioBlob fileId env).state.candidateName = "" ∧
       (handleRecordingComplete app user audioBlob fileId env).state.questionLabel = "" ∧
       (handleRecordingComplete app user audioBlob fileId env).state.questionPosition = 1 ∧
       (handleRecordingComplete app user audioBlob fileId env).state.uploadSuccess = true ∧
       (handleRecordingComplete app user audioBlob fileId env).state.uploadError = "" ∧
       (handleRecordingComplete app user audioBlob fileId env).state.isUploading = false) := by
  obtain ⟨ue, de, pf⟩ := env
  refine ⟨?_, ?_, ?_⟩
  · intro h
    unfold handleRecordingComplete
    rw [if_pos h]
  · intro h1 h2
    unfold handleRecordingComplete
    rw [if_neg h1, if_pos h2]
  · intro h1 h2 h3 h4
    cases h3
    cases h4
    unfold handleRecordingComplete
    rw [if_neg h1, if_neg h2]
    exact ⟨rfl, rfl, rfl, rfl, rfl, rfl⟩

/-- A valid recording form. -/
def c10App : AppState :=
  { candidateName := "Ada", questionLabel := "Q1", questionPosition := 3,
    isUploading := false, uploadSuccess := false, uploadError := "" }

/-- The same form with a whitespace-only candidate name. -/
def c10AppNoName : AppState :=
  { c10App with candidateName := "   " }

/-- A backend where the upload and the insert both succeed. -/
def c10Env : UploadEnv :=
  { uploadErr := none, dbErr := none, publicUrlOf := fun p => "https://cdn/" ++ p }

/-- Witness for C10: a whitespace-only candidate name yields only the
validation message with no upload or insert; a fully successful upload
clears the form and resets the position to 1. -/
theorem c10_upload_validation_witness :
    handleRecordingComplete c10AppNoName none ⟨[1], "audio/webm"⟩ "id0" c10Env =
      { state := { c10AppNoName with uploadError := "Please enter candidate name" },
        uploads := [], inserts := [] } ∧
    (handleRecordingComplete c10App none ⟨[1], "audio/webm"⟩ "id0" c10Env).state.candidateName = "" ∧
    (handleRecordingComplete c10App none ⟨[1], "audio/webm"⟩ "id0" c10Env).state.questionLabel = "" ∧
    (handleRecordingComplete c10App none ⟨[1], "audio/webm"⟩ "id0" c10Env).state.questionPosition = 1 :=
  ⟨(c10_upload_validation c10AppNoName none ⟨[1], "audio/webm"⟩ "id0" c10Env).1 (by decide),
   ((c10_upload_validation c10App none ⟨[1], "audio/webm"⟩ "id0" c10Env).2.2
      (by decide) (by decide) rfl rfl).1,
   ((c10_upload_validation c10App none ⟨[1], "audio/webm"⟩ "id0" c10Env).2.2
      (by decide) (by decide) rfl rfl).2.1,
   ((c10_upload_validation c10App none ⟨[1], "audio/webm"⟩ "id0" c10Env).2.2
      (by decide) (by decide) rfl rfl).2.2.1⟩

end VoiceRec
